import Mathlib

/-!
Verification of the Cloud-Hypervisor (CH) domain manager, `src/ch/ch_domain.c`,
against its natural-language specification.

The C code is shallowly embedded: each C function of interest becomes a Lean
function over explicit data.  External collaborators that the C code merely
calls (the capability oracle, the NUMA free-page query, the systemd naming
service, the monitor's thread-list query) are passed in as explicit data or
functions, mirroring the spec's "external interfaces" section.
-/

namespace ChDomain

/-- Error kinds raised through `virReportError` in ch_domain.c, together with
the kinds the spec's error taxonomy names.  `configUnsupported` is
`VIR_ERR_CONFIG_UNSUPPORTED`, `internalError` is `VIR_ERR_INTERNAL_ERROR`,
`configInvalid` is `VIR_ERR_CONFIG_INVALID` (present in libvirt's error enum,
named by the spec for the CPU-mode stage). -/
inductive VirErrKind where
  | configUnsupported
  | internalError
  | configInvalid
  | unsupported
  | noDomain
deriving DecidableEq, Repr

/-- A reported error: kind plus the formatted message. -/
structure VirError where
  kind : VirErrKind
  msg : String
deriving DecidableEq, Repr

/-- Outcome of a C function returning `int` with 0 = success.  A failure
carries `some e` when the function itself called `virReportError e`, and
`none` when it returned failure without reporting a structured error (e.g.
after a `VIR_ERROR(...)` log line, or when the callee already reported). -/
abbrev VRes (α : Type) := Except (Option VirError) α

/-- `virCPUMode` (the values relevant here; `hostPassthrough` is
`VIR_CPU_MODE_HOST_PASSTHROUGH`). -/
inductive VirCPUMode where
  | custom
  | hostModel
  | hostPassthrough
  | maximum
deriving DecidableEq, Repr

/-- `virDomainChrType`: the backing transport of a character device
(`pty` = `VIR_DOMAIN_CHR_TYPE_PTY`, `unix` = `VIR_DOMAIN_CHR_TYPE_UNIX`). -/
inductive VirDomainChrType where
  | null
  | vc
  | pty
  | dev
  | file
  | pipe
  | stdio
  | udp
  | tcp
  | unix
  | spicevmc
  | spiceport
  | nmdm
  | qemuVdagent
  | dbus
deriving DecidableEq, Repr

/-- `virDomainDeviceType`: every value of the C enum that a
`virDomainDeviceDef` can carry, in enum order.  `none` is
`VIR_DOMAIN_DEVICE_NONE` (value 0).  The `VIR_DOMAIN_DEVICE_LAST` sentinel is
not a value of the type; the `default:` branch of the C switch (an
out-of-enum integer) is unrepresentable here. -/
inductive VirDomainDeviceType where
  | none
  | disk
  | lease
  | fs
  | net
  | input
  | sound
  | video
  | hostdev
  | watchdog
  | controller
  | graphics
  | hub
  | redirdev
  | smartcard
  | chr
  | memballoon
  | nvram
  | rng
  | shmem
  | tpm
  | panic
  | memory
  | iommu
  | vsock
  | audio
  | crypto
deriving DecidableEq, Repr

/-- Modelled from the spec: the external enum-to-string table
(`virDomainDeviceTypeToString`, outside src/) that names each device type in
error messages. -/
def virDomainDeviceTypeToString : VirDomainDeviceType → String
  | .none => "none"
  | .disk => "disk"
  | .lease => "lease"
  | .fs => "filesystem"
  | .net => "interface"
  | .input => "input"
  | .sound => "sound"
  | .video => "video"
  | .hostdev => "hostdev"
  | .watchdog => "watchdog"
  | .controller => "controller"
  | .graphics => "graphics"
  | .hub => "hub"
  | .redirdev => "redirdev"
  | .smartcard => "smartcard"
  | .chr => "chr"
  | .memballoon => "memballoon"
  | .nvram => "nvram"
  | .rng => "rng"
  | .shmem => "shmem"
  | .tpm => "tpm"
  | .panic => "panic"
  | .memory => "memory"
  | .iommu => "iommu"
  | .vsock => "vsock"
  | .audio => "audio"
  | .crypto => "crypto"

/-- One entry of `mem->hugepages`: a requested huge-page size. -/
structure VirDomainHugePage where
  size : Nat
deriving DecidableEq, Repr

/-- The slice of `virDomainMemtune` read by ch_domain.c: the hugepages array
(`nhugepages` is its length), the `nosharepages` flag, and the total/initial
memory returned by `virDomainDefGetMemoryInitial`. -/
structure VirDomainMemtune where
  hugepages : List VirDomainHugePage
  nosharepages : Bool
  totalMemory : Nat
deriving DecidableEq, Repr

/-- The slice of `virCPUDef` read by ch_domain.c. -/
structure VirCPUDef where
  mode : VirCPUMode
deriving DecidableEq, Repr

/-- The slice of a `virDomainChrDef` read by ch_domain.c: the type of its
backing source (`chr->source->type`). -/
structure VirDomainChrDef where
  sourceType : VirDomainChrType
deriving DecidableEq, Repr

/-- The slice of `virDomainDef` read by ch_domain.c.  Devices are represented
by their `dev->type` tag, the only field `chValidateDomainDeviceDef`
inspects on the device itself; `consoles` and `serials` are the def's arrays
of the same names (`nconsoles`/`nserials` are their lengths). -/
structure VirDomainDef where
  emulator : Option String
  osType : Nat
  osArch : Nat
  virtType : Nat
  cpu : Option VirCPUDef
  mem : VirDomainMemtune
  devices : List VirDomainDeviceType
  consoles : List VirDomainChrDef
  serials : List VirDomainChrDef
  id : Int
  name : String

/-- `virDomainDefGetMemoryInitial(def)` (outside src/): the definition's
initial memory. -/
def virDomainDefGetMemoryInitial (d : VirDomainDef) : Nat :=
  d.mem.totalMemory

/-- The slice of `virCaps` read by ch_domain.c: the host's supported page
sizes (`caps->host.pagesSize`, length `nPagesSize`) and, modelled from the
spec, the supported OS-type/arch/virt-type triples consulted by
`virCapabilitiesDomainSupported`. -/
structure VirCaps where
  pagesSize : List Nat
  supportedTriples : List (Nat × Nat × Nat)

/-- Modelled from the spec: `virCapabilitiesDomainSupported` (outside src/)
"confirms the definition's OS type/architecture/virtualization-type triple is
supported". -/
def virCapabilitiesDomainSupported (caps : VirCaps) (t a v : Nat) : Bool :=
  caps.supportedTriples.contains (t, a, v)

/-- The external collaborators of the driver, passed to the embedded
functions in place of the `virCHDriver *` opaque pointer:
`findProgramCH` is the result of `g_find_program_in_path(CH_CMD)`;
`caps` is the result of `virCHDriverGetCapabilities(driver, false)`
(`none` = the call failed);
`numaFreePages s` is the free-page count that
`virNumaGetPageInfo(-1, s, 0, NULL, &page_free)` reports for page size `s`
(`none` = the call failed);
`getMachineNameByPid` is `virSystemdGetMachineNameByPID`;
`privileged` is `driver->privileged`. -/
structure VirCHDriverEnv where
  findProgramCH : Option String
  caps : Option VirCaps
  numaFreePages : Nat → Option Nat
  getMachineNameByPid : Nat → Option String
  privileged : Bool

/-- ch_domain.c:71-85 `virCHDomainDefPostParseBasic`: if no emulator is set,
search the path for the default binary; failing that, report
`VIR_ERR_CONFIG_UNSUPPORTED`.  (The C function returns 1, a non-zero
failure, on that path.)  On success the possibly-updated definition is
returned, mirroring the in-place mutation of `def->emulator`. -/
def virCHDomainDefPostParseBasic (env : VirCHDriverEnv) (d : VirDomainDef) :
    VRes VirDomainDef :=
  match d.emulator with
  | some _ => .ok d
  | none =>
    match env.findProgramCH with
    | some p => .ok { d with emulator := some p }
    | none =>
      .error (some ⟨.configUnsupported, "No emulator found for cloud-hypervisor"⟩)

/-- ch_domain.c:120-136 `virCHDomainDefPostParse`: fetch capabilities and
check the OS/arch/virt-type triple is supported; both failure paths return -1
without this function reporting an error itself. -/
def virCHDomainDefPostParse (env : VirCHDriverEnv) (d : VirDomainDef) :
    VRes Unit :=
  match env.caps with
  | none => .error none
  | some caps =>
    if virCapabilitiesDomainSupported caps d.osType d.osArch d.virtType then
      .ok ()
    else
      .error none

/-- ch_domain.c:257-268 `chValidateDomainDef`: a present CPU configuration
whose mode is not host-passthrough fails.  The C code emits only a
`VIR_ERROR(...)` log line and returns -1; it calls no `virReportError`, so
the failure carries no structured error (`Except.error none`). -/
def chValidateDomainDef (d : VirDomainDef) : VRes Unit :=
  match d.cpu with
  | some c => if c.mode ≠ .hostPassthrough then .error none else .ok ()
  | none => .ok ()

/-- The message of ch_domain.c:306-308, faithful to the source's spelling. -/
def chMsgUnsupportedPageSize (s : Nat) : String :=
  s!"Host does not suppot HugePage size {s} B"

/-- The message of ch_domain.c:318-320. -/
def chMsgNotEnoughPages (s : Nat) : String :=
  s!"Host does not have enough free HugePages of size {s} B"

/-- ch_domain.c:271-325 `virCHDomainDefValidateMemory`, the huge-page
admission check.  `numaFreePages` stands for the external
`virNumaGetPageInfo` query (§6's free-page oracle); its failure makes the
validator return -1 without reporting here.  Note the source computes
`pages_needed = total_memory / hugepage_size` with C integer (flooring)
division. -/
def virCHDomainDefValidateMemory (d : VirDomainDef) (caps : VirCaps)
    (numaFreePages : Nat → Option Nat) : VRes Unit :=
  match d.mem.hugepages with
  | [] => .ok ()
  | _ :: _ :: _ =>
    .error (some ⟨.configUnsupported,
      "Multiple hugepages config is not supported in CH Driver"⟩)
  | [hp] =>
    if d.mem.nosharepages then
      .error (some ⟨.configUnsupported,
        "Disabling shared memory doesn't work with CH"⟩)
    else
      let hugepage_size := hp.size
      if caps.pagesSize.contains hugepage_size then
        match numaFreePages hugepage_size with
        | none => .error none
        | some page_free =>
          let total_memory := virDomainDefGetMemoryInitial d
          let pages_needed := total_memory / hugepage_size
          if pages_needed > page_free then
            .error (some ⟨.configUnsupported, chMsgNotEnoughPages hugepage_size⟩)
          else
            .ok ()
      else
        .error (some ⟨.configUnsupported, chMsgUnsupportedPageSize hugepage_size⟩)

/-- ch_domain.c:327-340 `virCHDomainDefValidate`: fetch capabilities, then
run the memory admission check. -/
def virCHDomainDefValidate (env : VirCHDriverEnv) (d : VirDomainDef) :
    VRes Unit :=
  match env.caps with
  | none => .error none
  | some caps => virCHDomainDefValidateMemory d caps env.numaFreePages

/-- The message of ch_domain.c:179-181, naming the offending device type. -/
def chMsgUnsupportedDevice (t : VirDomainDeviceType) : String :=
  s!"Cloud-Hypervisor doesn't support '{virDomainDeviceTypeToString t}' device"

/-- ch_domain.c:144-220 `chValidateDomainDeviceDef`: the device-type
allow-list switch, then the console/serial count and transport checks, in
source order. -/
def chValidateDomainDeviceDef (devType : VirDomainDeviceType)
    (d : VirDomainDef) : VRes Unit := do
  match devType with
  | .disk | .net | .memory | .vsock | .controller | .chr => pure ()
  | .none => throw (some ⟨.internalError, "unexpected VIR_DOMAIN_DEVICE_NONE"⟩)
  | .lease | .fs | .input | .sound | .video | .hostdev | .watchdog
  | .graphics | .hub | .redirdev | .smartcard | .memballoon | .nvram
  | .rng | .shmem | .tpm | .panic | .iommu | .audio | .crypto =>
    throw (some ⟨.configUnsupported, chMsgUnsupportedDevice devType⟩)
  if d.consoles.length > 1 then
    throw (some ⟨.internalError,
      "Only a single console can be configured for this domain"⟩)
  if d.serials.length > 1 then
    throw (some ⟨.internalError,
      "Only a single serial can be configured for this domain"⟩)
  match d.consoles with
  | c0 :: _ =>
    if c0.sourceType ≠ .pty ∧ c0.sourceType ≠ .unix then
      throw (some ⟨.internalError, "Console works only in UNIX / PTY modes"⟩)
  | [] => pure ()
  match d.serials with
  | s0 :: _ =>
    if s0.sourceType ≠ .pty ∧ s0.sourceType ≠ .unix then
      throw (some ⟨.internalError, "Serial works only in UNIX/PTY modes"⟩)
  | [] => pure ()

/-! ## Thread-info reconciler (ch_domain.c:222-256) -/

/-- Modelled from the spec: the monitor's thread kind tag — "tagged with a
thread kind (e.g., \"vcpu\" vs other)".  `vcpu` is `virCHThreadTypeVcpu`. -/
inductive VirCHThreadType where
  | vcpu
  | other
deriving DecidableEq, Repr

/-- `virCHMonitorCPUInfo`: the logical CPU index and OS thread id carried by
a vcpu-kind thread record. -/
structure VirCHMonitorCPUInfo where
  cpuid : Nat
  tid : Nat
deriving DecidableEq, Repr

/-- `virCHMonitorThreadInfo`: one thread reported by the monitor. -/
structure VirCHMonitorThreadInfo where
  type : VirCHThreadType
  vcpuInfo : VirCHMonitorCPUInfo
deriving DecidableEq, Repr

/-- The outcome of `virCHDomainRefreshThreadInfo`: the per-slot tids after
the run (`VcpuPrivateState` contents, indexed by logical CPU id), the count
`ncpus` of vcpu-kind threads reconciled, whether the count mismatch warning
(`VIR_WARN` at ch_domain.c:251-253) fired, and the C return value. -/
structure RefreshResult where
  tids : List Nat
  ncpus : Nat
  warned : Bool
  ret : Int
deriving DecidableEq, Repr

/-- The loop of ch_domain.c:234-248 over the monitor's thread list.  The
per-vCPU private state is the list `tids`, one entry per declared vCPU slot
(`virDomainDefGetVcpusMax` slots, addressable by logical CPU index; the spec's
`VcpuPrivateState`).  For a vcpu-kind entry the source does
`vcpu = virDomainDefGetVcpu(vm->def, cpuid)` — which yields no slot when
`cpuid` is outside the declared range — and then unconditionally dereferences
`CH_DOMAIN_VCPU_PRIVATE(vcpu)->tid`.  The out-of-range case is therefore a
null-pointer dereference; it is modelled as `none` (the run does not complete
normally). -/
def refreshThreadLoop :
    List VirCHMonitorThreadInfo → List Nat → Nat → Option (List Nat × Nat)
  | [], tids, ncpus => some (tids, ncpus)
  | t :: rest, tids, ncpus =>
    if t.type ≠ .vcpu then
      refreshThreadLoop rest tids ncpus
    else if t.vcpuInfo.cpuid < tids.length then
      refreshThreadLoop rest (tids.set t.vcpuInfo.cpuid t.vcpuInfo.tid) (ncpus + 1)
    else
      none

/-- ch_domain.c:222-256 `virCHDomainRefreshThreadInfo`.  `info` is the thread
list returned by the external `virCHMonitorGetThreadInfo` query (an
unreachable monitor yields `[]`); `vcpuTids` is the current per-slot tid
state, whose length is the declared maximum vCPU count.  On a completed run
the function returns 0 unconditionally; a mismatch between `ncpus` and
`maxvcpus` only sets the warning flag. -/
def virCHDomainRefreshThreadInfo (info : List VirCHMonitorThreadInfo)
    (vcpuTids : List Nat) : Option RefreshResult :=
  (refreshThreadLoop info vcpuTids 0).map
    (fun p => ⟨p.1, p.2, p.2 != vcpuTids.length, 0⟩)

/-- The vcpu-kind writes (logical CPU index, tid) contained in a monitor
response, in report order. -/
def vcpuWrites (info : List VirCHMonitorThreadInfo) : List (Nat × Nat) :=
  info.filterMap
    (fun t => if t.type = .vcpu then some (t.vcpuInfo.cpuid, t.vcpuInfo.tid) else none)

/-- Apply a sequence of (index, value) writes to a tid list, left to right. -/
def applyWrites (ws : List (Nat × Nat)) (tids : List Nat) : List Nat :=
  ws.foldl (fun a w => a.set w.1 w.2) tids

/-- The last write a sequence makes to position `p`, if any. -/
def lastWriteTo : List (Nat × Nat) → Nat → Option Nat
  | [], _ => none
  | w :: ws, p =>
    match lastWriteTo ws p with
    | some v => some v
    | none => if w.1 = p then some w.2 else none

/-! ## Machine identity resolver (ch_domain.c:383-403) -/

/-- Modelled from the spec: `virDomainDriverGenerateMachineName` (outside
src/, in domain_driver.c) — the fallback name is "synthesize[d]
deterministically from a fixed driver prefix, the instance's numeric id, its
logical name, and a privilege-mode flag". -/
def virDomainDriverGenerateMachineName (pfx : String) (id : Int)
    (name : String) (privileged : Bool) : String :=
  pfx ++ "-" ++ toString id ++ "-" ++ name ++
    (if privileged then "" else "-unprivileged")

/-- ch_domain.c:383-403 `virCHDomainGetMachineName`.  `pid` is `vm->pid`
(0 = no live process); the systemd query runs only for a live pid, and any
absent answer falls through to the deterministic generator with prefix
"ch", `vm->def->id`, `vm->def->name` and `driver->privileged`. -/
def virCHDomainGetMachineName (env : VirCHDriverEnv) (pid : Nat)
    (d : VirDomainDef) : String :=
  let fromSystemd : Option String :=
    if pid ≠ 0 then env.getMachineNameByPid pid else none
  match fromSystemd with
  | some n => n
  | none => virDomainDriverGenerateMachineName "ch" d.id d.name env.privileged

/-! ## The registered parser configuration (ch_domain.c:342-349) -/

/-- The callback slots of `virDomainDefParserConfig` that ch_domain.c fills:
basic post-parse, full post-parse, domain validation, device validation. -/
structure VirDomainDefParserConfig where
  domainPostParseBasicCallback : VirCHDriverEnv → VirDomainDef → VRes VirDomainDef
  domainPostParseCallback : VirCHDriverEnv → VirDomainDef → VRes Unit
  domainValidateCallback : VirCHDriverEnv → VirDomainDef → VRes Unit
  deviceValidateCallback : VirDomainDeviceType → VirDomainDef → VRes Unit

/-- The designated initializers of ch_domain.c:342-349 applied in textual
order up to and including line 345's `.domainValidateCallback =
virCHDomainDefValidate`. -/
def virCHDriverDomainDefParserConfigInit : VirDomainDefParserConfig where
  domainPostParseBasicCallback := virCHDomainDefPostParseBasic
  domainPostParseCallback := virCHDomainDefPostParse
  domainValidateCallback := virCHDomainDefValidate
  deviceValidateCallback := chValidateDomainDeviceDef

/-- `virCHDriverDomainDefParserConfig` (ch_domain.c:342-349).  The struct
initializer designates `.domainValidateCallback` twice: line 345 assigns
`virCHDomainDefValidate`, line 347 assigns `chValidateDomainDef`.  Per C11
6.7.9, the later initializer for the same member overrides the earlier one,
so the installed domain-validate callback is `chValidateDomainDef` and
`virCHDomainDefValidate` (the memory/huge-page admission wrapper) is never
registered. -/
def virCHDriverDomainDefParserConfig : VirDomainDefParserConfig :=
  { virCHDriverDomainDefParserConfigInit with
    domainValidateCallback := fun _ d => chValidateDomainDef d }

/-- The devices the management layer's device-validation pass iterates over:
the declared devices, with each console and serial also visited as a
character device. -/
def chDeviceList (d : VirDomainDef) : List VirDomainDeviceType :=
  d.devices ++ (d.consoles ++ d.serials).map (fun _ => .chr)

/-- Run the device-validate callback over a device list, aborting at the
first failure. -/
def runDeviceValidation (cb : VirDomainDeviceType → VirDomainDef → VRes Unit)
    (d : VirDomainDef) : List VirDomainDeviceType → VRes Unit
  | [] => .ok ()
  | t :: rest => do
    cb t d
    runDeviceValidation cb d rest

/-- The management layer's sequencing of the registered callbacks, in the
spec's fixed stage order: basic post-parse, full post-parse, domain
validation, then device validation for every declared device.  A stage
failure aborts the pipeline; success admits the (post-parsed) definition. -/
def runValidationPipeline (cfg : VirDomainDefParserConfig)
    (env : VirCHDriverEnv) (d0 : VirDomainDef) : VRes VirDomainDef := do
  let d ← cfg.domainPostParseBasicCallback env d0
  cfg.domainPostParseCallback env d
  cfg.domainValidateCallback env d
  runDeviceValidation (cfg.deviceValidateCallback) d (chDeviceList d)
  pure d

/-- Ceiling division, the `ceil(initialMemoryBytes / pageSizeBytes)` of the
spec's admission formula. -/
def ceilDiv (a b : Nat) : Nat :=
  (a + b - 1) / b

/-- Whether an outcome is a failure reported with the given error kind. -/
def failsWithKind (r : VRes Unit) (k : VirErrKind) : Bool :=
  match r with
  | .error (some e) => e.kind = k
  | _ => false

/-- The device-type allow-list of ch_domain.c:151-156 (spec §4.2 stage 5):
disk, network interface, memory device, vsock, controller, character
device. -/
def chDeviceAllowList : List VirDomainDeviceType :=
  [.disk, .net, .memory, .vsock, .controller, .chr]

/-! ## Concrete instances used to settle the claims -/

/-- A host capability snapshot: one supported huge-page size (2048) and one
supported OS/arch/virt-type triple. -/
def caps2M : VirCaps :=
  { pagesSize := [2048], supportedTriples := [(0, 0, 0)] }

/-- A driver environment over `caps2M` whose free-page oracle reports zero
free pages of size 2048, and whose naming service has no records. -/
def envNoFree : VirCHDriverEnv :=
  { findProgramCH := some "cloud-hypervisor"
    caps := some caps2M
    numaFreePages := fun s => if s = 2048 then some 0 else none
    getMachineNameByPid := fun _ => none
    privileged := true }

/-- A minimal valid definition: emulator set, supported triple, no CPU
element, no huge pages, no devices, no consoles or serials. -/
def baseDef : VirDomainDef :=
  { emulator := some "cloud-hypervisor"
    osType := 0
    osArch := 0
    virtType := 0
    cpu := none
    mem := { hugepages := [], nosharepages := false, totalMemory := 0 }
    devices := []
    consoles := []
    serials := []
    id := 1
    name := "vm" }

/-- `baseDef` requesting one huge-page size of 2048 with initial memory
4096, i.e. 2 pages needed. -/
def defHugepages : VirDomainDef :=
  { baseDef with mem := { hugepages := [⟨2048⟩], nosharepages := false, totalMemory := 4096 } }

/-- `baseDef` with a present CPU element in `custom` mode. -/
def defCpuCustom : VirDomainDef :=
  { baseDef with cpu := some ⟨.custom⟩ }

/-- Host capabilities for the admission-rounding counterexample: supported
page size 2. -/
def capsC2 : VirCaps :=
  { pagesSize := [2], supportedTriples := [(0, 0, 0)] }

/-- Free-page oracle for the rounding counterexample: 1 free page of
size 2. -/
def freeC2 : Nat → Option Nat :=
  fun s => if s = 2 then some 1 else none

/-- `baseDef` requesting one huge page of size 2 with initial memory 3:
`ceil(3 / 2) = 2` pages are needed, but the code's flooring division
computes 1. -/
def defC2 : VirDomainDef :=
  { baseDef with mem := { hugepages := [⟨2⟩], nosharepages := false, totalMemory := 3 } }

/-- `baseDef` with two consoles. -/
def defTwoConsoles : VirDomainDef :=
  { baseDef with consoles := [⟨.pty⟩, ⟨.pty⟩] }

/-- `baseDef` with two serials. -/
def defTwoSerials : VirDomainDef :=
  { baseDef with serials := [⟨.pty⟩, ⟨.unix⟩] }

/-- `baseDef` with one console backed by a TCP source (neither PTY nor
UNIX socket). -/
def defConsoleTcp : VirDomainDef :=
  { baseDef with consoles := [⟨.tcp⟩] }

/-- `baseDef` with one PTY-backed console. -/
def defConsolePty : VirDomainDef :=
  { baseDef with consoles := [⟨.pty⟩] }

/-- `baseDef` with one UNIX-socket-backed serial. -/
def defSerialUnix : VirDomainDef :=
  { baseDef with serials := [⟨.unix⟩] }

/-- `baseDef` with one UDP-backed serial (neither PTY nor UNIX socket). -/
def defSerialUdp : VirDomainDef :=
  { baseDef with serials := [⟨.udp⟩] }

/-- A monitor response reporting one vcpu-kind thread with logical CPU
index 1 (tid 42) — out of range for an instance with a single declared
vCPU slot. -/
def infoCpu1 : List VirCHMonitorThreadInfo :=
  [⟨.vcpu, ⟨1, 42⟩⟩]

/-- A monitor response reporting one vcpu-kind thread with logical CPU
index 5 (tid 7) — out of range for an instance with two declared vCPU
slots. -/
def infoCpu5 : List VirCHMonitorThreadInfo :=
  [⟨.vcpu, ⟨5, 7⟩⟩]

/-! ## Theorems -/

/-- C10: a definition with no CPU configuration at all passes the CPU-mode
validation stage: `chValidateDomainDef` rejects only a present CPU
configuration with a non-host-passthrough mode. -/
theorem C10_absent_cpu_passes (d : VirDomainDef) (h : d.cpu = none) :
    chValidateDomainDef d = .ok () := by
  simp [chValidateDomainDef, h]

/-- Witness for C10 at the concrete definition `baseDef`. -/
theorem C10_absent_cpu_passes_witness :
    baseDef.cpu = none ∧ chValidateDomainDef baseDef = .ok () :=
  ⟨rfl, C10_absent_cpu_passes baseDef rfl⟩

/-- C3 counterexample: a present CPU configuration in `custom` mode is
rejected by `chValidateDomainDef`, but the failure carries no structured
`ConfigInvalid` report — the source only logs via `VIR_ERROR` and returns
-1, calling no `virReportError`, so no error of kind `configInvalid` (or any
other kind) is raised, contrary to the claim that this stage "fails with
error kind ConfigInvalid". -/
theorem C3_counterexample_no_configInvalid :
    chValidateDomainDef defCpuCustom ≠ .ok () ∧
      chValidateDomainDef defCpuCustom = .error none ∧
      failsWithKind (chValidateDomainDef defCpuCustom) .configInvalid = false := by
  refine ⟨?_, rfl, rfl⟩
  intro h
  simp [chValidateDomainDef, defCpuCustom, baseDef] at h

/-- C3 (amended): for every definition whose CPU configuration is present,
CPU-mode validation fails whenever the mode is not host-passthrough — the
failure being a bare failure return accompanied only by a logged message,
not a structured `ConfigInvalid` report — and passes whenever the mode is
host-passthrough. -/
theorem C3_cpu_mode_validation (d : VirDomainDef) (c : VirCPUDef)
    (h : d.cpu = some c) :
    chValidateDomainDef d =
      (if c.mode = .hostPassthrough then .ok () else .error none) := by
  by_cases hm : c.mode = .hostPassthrough <;>
    simp [chValidateDomainDef, h, hm]

/-- Witness for C3 (amended) at `defCpuCustom`. -/
theorem C3_cpu_mode_validation_witness :
    defCpuCustom.cpu = some ⟨.custom⟩ ∧
      chValidateDomainDef defCpuCustom =
        (if VirCPUMode.custom = .hostPassthrough then .ok () else .error none) :=
  ⟨rfl, C3_cpu_mode_validation defCpuCustom ⟨.custom⟩ rfl⟩

/-- C9: whenever the external naming service has no record for the
instance's pid, or the instance has no live process (pid = 0),
`virCHDomainGetMachineName` returns the deterministic fallback composed by
`virDomainDriverGenerateMachineName` from the fixed prefix "ch", the
definition's numeric id and name, and the driver's privilege flag.  The
function is total (String-valued): it never raises an error. -/
theorem C9_machine_name_fallback (env : VirCHDriverEnv) (pid : Nat)
    (d : VirDomainDef)
    (h : pid = 0 ∨ env.getMachineNameByPid pid = none) :
    virCHDomainGetMachineName env pid d =
      virDomainDriverGenerateMachineName "ch" d.id d.name env.privileged := by
  rcases h with h | h
  · simp [virCHDomainGetMachineName, h]
  · by_cases hp : pid = 0 <;> simp [virCHDomainGetMachineName, hp, h]

/-- Witness for C9: `envNoFree`'s naming service has no record for pid 5,
and resolution at `baseDef` yields the deterministic fallback. -/
theorem C9_machine_name_fallback_witness :
    envNoFree.getMachineNameByPid 5 = none ∧
      virCHDomainGetMachineName envNoFree 5 baseDef =
        virDomainDriverGenerateMachineName "ch" baseDef.id baseDef.name
          envNoFree.privileged :=
  ⟨rfl, C9_machine_name_fallback envNoFree 5 baseDef (Or.inr rfl)⟩

/-- C2 counterexample: with one supported huge-page size 2, one free page,
and initial memory 3, the spec's formula gives
`pagesNeeded = ceil(3 / 2) = 2 > 1 = freePages`, so the claim requires
admission to fail — but the code's flooring integer division computes
`3 / 2 = 1 ≤ 1` and the admission passes. -/
theorem C2_counterexample_floor_not_ceil :
    virCHDomainDefValidateMemory defC2 capsC2 freeC2 = .ok () ∧
      ceilDiv (virDomainDefGetMemoryInitial defC2) 2 > 1 ∧
      freeC2 2 = some 1 := by
  refine ⟨rfl, ?_, rfl⟩
  decide

/-- C2 (amended): for a definition requesting exactly one huge-page size
that the host supports, with shared pages not disabled, and the free-page
oracle answering, memory admission computes
`pagesNeeded = floor(initialMemory / pageSize)` (C integer division) and
fails with `ConfigUnsupported` if and only if `pagesNeeded > freePages`;
in particular exact boundary equality passes. -/
theorem C2_hugepage_admission (d : VirDomainDef) (caps : VirCaps)
    (oracle : Nat → Option Nat) (s free : Nat)
    (h1 : d.mem.hugepages = [⟨s⟩]) (h2 : d.mem.nosharepages = false)
    (h3 : caps.pagesSize.contains s = true) (h4 : oracle s = some free) :
    (virCHDomainDefValidateMemory d caps oracle = .ok () ↔
        virDomainDefGetMemoryInitial d / s ≤ free) ∧
      (virDomainDefGetMemoryInitial d / s > free →
        virCHDomainDefValidateMemory d caps oracle =
          .error (some ⟨.configUnsupported, chMsgNotEnoughPages s⟩)) := by
  unfold virCHDomainDefValidateMemory
  rw [h1]
  simp only [h2, h3, h4, Bool.false_eq_true, if_false, if_true]
  by_cases hgt : virDomainDefGetMemoryInitial d / s > free
  · simp [hgt]
  · simp [hgt]
    omega

/-- Witness for C2 (amended) at size 2, one free page, initial memory 3:
admission passes and indeed `3 / 2 = 1 ≤ 1`. -/
theorem C2_hugepage_admission_witness :
    defC2.mem.hugepages = [⟨2⟩] ∧ defC2.mem.nosharepages = false ∧
      capsC2.pagesSize.contains 2 = true ∧ freeC2 2 = some 1 ∧
      ((virCHDomainDefValidateMemory defC2 capsC2 freeC2 = .ok () ↔
          virDomainDefGetMemoryInitial defC2 / 2 ≤ 1) ∧
        (virDomainDefGetMemoryInitial defC2 / 2 > 1 →
          virCHDomainDefValidateMemory defC2 capsC2 freeC2 =
            .error (some ⟨.configUnsupported, chMsgNotEnoughPages 2⟩))) :=
  ⟨rfl, rfl, rfl, rfl, C2_hugepage_admission defC2 capsC2 freeC2 2 1 rfl rfl rfl rfl⟩

/-- C4: the code violates the claimed safety.  For an instance with a single
declared vCPU slot, a monitor response reporting a vcpu-kind thread with
logical CPU index 1 names no declared slot; instead of leaving all tids
unchanged, `virCHDomainRefreshThreadInfo` dereferences the null slot pointer
returned by the vCPU lookup (`CH_DOMAIN_VCPU_PRIVATE(vcpu)->tid` at
ch_domain.c:245-246 with `vcpu == NULL`), modelled as the non-completing
outcome `none`. -/
theorem C4_out_of_range_cpuid_crashes :
    ([0] : List Nat).length = 1 ∧
      virCHDomainRefreshThreadInfo infoCpu1 [0] = none := by
  exact ⟨rfl, rfl⟩

/-- C5: the code violates the claimed absence of a failure mode.  An
unreachable monitor (empty thread list) indeed yields success with return
value 0 and only the mismatch warning — but a monitor response reporting a
vcpu-kind thread with out-of-range logical CPU index 5 makes the function
dereference a null slot pointer (modelled `none`) instead of returning
success. -/
theorem C5_refresh_not_total :
    virCHDomainRefreshThreadInfo [] [0, 0] = some ⟨[0, 0], 0, true, 0⟩ ∧
      virCHDomainRefreshThreadInfo infoCpu5 [0, 0] = none := by
  exact ⟨rfl, rfl⟩

/-- C1: the code violates the claim.  The struct initializer at
ch_domain.c:342-349 designates `.domainValidateCallback` twice, so (C11
6.7.9) the later assignment `chValidateDomainDef` overrides the earlier
`virCHDomainDefValidate` and the memory/huge-page admission stage is never
registered.  Concretely: `defHugepages` requests one huge page size (2048)
with two pages needed while the host has zero free pages — the admission
check `virCHDomainDefValidateMemory` rejects it with `ConfigUnsupported`,
yet the registered validation pipeline admits the definition, and the
installed domain-validate callback disagrees with `virCHDomainDefValidate`
on this very input. -/
theorem C1_hugepage_admission_never_runs :
    runValidationPipeline virCHDriverDomainDefParserConfig envNoFree defHugepages =
        .ok defHugepages ∧
      virCHDomainDefValidateMemory defHugepages caps2M envNoFree.numaFreePages =
        .error (some ⟨.configUnsupported, chMsgNotEnoughPages 2048⟩) ∧
      virCHDriverDomainDefParserConfig.domainValidateCallback envNoFree defHugepages ≠
        virCHDomainDefValidate envNoFree defHugepages := by
  refine ⟨rfl, rfl, ?_⟩
  intro h
  exact Except.noConfusion h

/-- C7 counterexample: the device type `VIR_DOMAIN_DEVICE_NONE` is outside
the allow-list, yet `chValidateDomainDeviceDef` rejects it with
`InternalError` ("unexpected VIR_DOMAIN_DEVICE_NONE"), not with
`ConfigUnsupported` naming the type as the claim requires for every
non-allow-listed type. -/
theorem C7_counterexample_none_internal_error :
    chValidateDomainDeviceDef .none baseDef =
        .error (some ⟨.internalError, "unexpected VIR_DOMAIN_DEVICE_NONE"⟩) ∧
      failsWithKind (chValidateDomainDeviceDef .none baseDef) .configUnsupported =
        false := by
  exact ⟨rfl, rfl⟩

/-- C7 (amended): on a definition with no consoles and no serials, device
validation accepts exactly the allow-listed device types {disk, network
interface, memory device, vsock, controller, character device}; every other
declared device type except the `none` placeholder fails with
`ConfigUnsupported` and a message naming that device type, while `none`
fails with `InternalError`. -/
theorem C7_device_allow_list (ty : VirDomainDeviceType) (d : VirDomainDef)
    (hc : d.consoles = []) (hs : d.serials = []) :
    (ty ∈ chDeviceAllowList → chValidateDomainDeviceDef ty d = .ok ()) ∧
      (ty ∉ chDeviceAllowList → ty ≠ .none →
        chValidateDomainDeviceDef ty d =
          .error (some ⟨.configUnsupported, chMsgUnsupportedDevice ty⟩)) ∧
      (ty = .none →
        chValidateDomainDeviceDef ty d =
          .error (some ⟨.internalError, "unexpected VIR_DOMAIN_DEVICE_NONE"⟩)) := by
  cases ty <;>
    simp [chValidateDomainDeviceDef, chDeviceAllowList, hc, hs] <;>
    rfl

/-- Witness for C7 (amended): a disk device passes on `baseDef`; a
filesystem device fails with `ConfigUnsupported` naming "filesystem". -/
theorem C7_device_allow_list_witness :
    baseDef.consoles = [] ∧ baseDef.serials = [] ∧
      chValidateDomainDeviceDef .disk baseDef = .ok () ∧
      chValidateDomainDeviceDef .fs baseDef =
        .error (some ⟨.configUnsupported, chMsgUnsupportedDevice .fs⟩) :=
  ⟨rfl, rfl, (C7_device_allow_list .disk baseDef rfl rfl).1 (by decide),
    (C7_device_allow_list .fs baseDef rfl rfl).2.1 (by decide) (by decide)⟩

/-- C8: for every definition, validating an (allow-listed) character device
fails with `InternalError` when more than one console is declared; when at
most one console is declared (with an allowed transport if present) and more
than one serial is declared; and when a single console's or serial's backing
transport is neither PTY nor UNIX socket.  A single console or serial with
PTY or UNIX-socket transport passes. -/
theorem C8_console_serial_constraints (d : VirDomainDef) :
    (d.consoles.length > 1 →
        chValidateDomainDeviceDef .chr d =
          .error (some ⟨.internalError,
            "Only a single console can be configured for this domain"⟩)) ∧
      (d.consoles = [] → d.serials.length > 1 →
        chValidateDomainDeviceDef .chr d =
          .error (some ⟨.internalError,
            "Only a single serial can be configured for this domain"⟩)) ∧
      (∀ c0 : VirDomainChrDef, d.consoles = [c0] → d.serials.length ≤ 1 →
        c0.sourceType ≠ .pty → c0.sourceType ≠ .unix →
        chValidateDomainDeviceDef .chr d =
          .error (some ⟨.internalError, "Console works only in UNIX / PTY modes"⟩)) ∧
      (∀ s0 : VirDomainChrDef, d.consoles = [] → d.serials = [s0] →
        s0.sourceType ≠ .pty → s0.sourceType ≠ .unix →
        chValidateDomainDeviceDef .chr d =
          .error (some ⟨.internalError, "Serial works only in UNIX/PTY modes"⟩)) ∧
      (∀ c0 : VirDomainChrDef, d.consoles = [c0] → d.serials = [] →
        (c0.sourceType = .pty ∨ c0.sourceType = .unix) →
        chValidateDomainDeviceDef .chr d = .ok ()) ∧
      (∀ s0 : VirDomainChrDef, d.consoles = [] → d.serials = [s0] →
        (s0.sourceType = .pty ∨ s0.sourceType = .unix) →
        chValidateDomainDeviceDef .chr d = .ok ()) := by
  refine ⟨?_, ?_, ?_, ?_, ?_, ?_⟩
  · intro h
    simp [chValidateDomainDeviceDef, h]
    rfl
  · intro hc h
    simp [chValidateDomainDeviceDef, hc, h]
    rfl
  · intro c0 hc hs h1 h2
    have hlen : ¬ d.consoles.length > 1 := by simp [hc]
    have hslen : ¬ d.serials.length > 1 := by omega
    simp [chValidateDomainDeviceDef, hc, hlen, hslen, h1, h2]
    rfl
  · intro s0 hc hs h1 h2
    simp [chValidateDomainDeviceDef, hc, hs, h1, h2]
    rfl
  · intro c0 hc hs h
    rcases h with h | h <;> simp [chValidateDomainDeviceDef, hc, hs, h] <;> rfl
  · intro s0 hc hs h
    rcases h with h | h <;> simp [chValidateDomainDeviceDef, hc, hs, h] <;> rfl

/-- Witness for C8 at concrete definitions: two consoles fail; two serials
fail; one TCP console fails; one UDP serial fails; one PTY console passes;
one UNIX serial passes. -/
theorem C8_console_serial_constraints_witness :
    chValidateDomainDeviceDef .chr defTwoConsoles =
        .error (some ⟨.internalError,
          "Only a single console can be configured for this domain"⟩) ∧
      chValidateDomainDeviceDef .chr defTwoSerials =
        .error (some ⟨.internalError,
          "Only a single serial can be configured for this domain"⟩) ∧
      chValidateDomainDeviceDef .chr defConsoleTcp =
        .error (some ⟨.internalError, "Console works only in UNIX / PTY modes"⟩) ∧
      chValidateDomainDeviceDef .chr defSerialUdp =
        .error (some ⟨.internalError, "Serial works only in UNIX/PTY modes"⟩) ∧
      chValidateDomainDeviceDef .chr defConsolePty = .ok () ∧
      chValidateDomainDeviceDef .chr defSerialUnix = .ok () :=
  ⟨(C8_console_serial_constraints defTwoConsoles).1 (by decide),
    (C8_console_serial_constraints defTwoSerials).2.1 rfl (by decide),
    (C8_console_serial_constraints defConsoleTcp).2.2.1 ⟨.tcp⟩ rfl (by decide)
      (by decide) (by decide),
    (C8_console_serial_constraints defSerialUdp).2.2.2.1 ⟨.udp⟩ rfl rfl
      (by decide) (by decide),
    (C8_console_serial_constraints defConsolePty).2.2.2.2.1 ⟨.pty⟩ rfl rfl
      (Or.inl rfl),
    (C8_console_serial_constraints defSerialUnix).2.2.2.2.2 ⟨.unix⟩ rfl rfl
      (Or.inr rfl)⟩

/-- Applying a write sequence preserves the number of vCPU slots. -/
theorem length_applyWrites (ws : List (Nat × Nat)) (s : List Nat) :
    (applyWrites ws s).length = s.length := by
  induction ws generalizing s with
  | nil => rfl
  | cons w ws ih =>
    show (applyWrites ws (s.set w.1 w.2)).length = s.length
    rw [ih, List.length_set]

/-- Pointwise effect of a write sequence: position `p` holds the last value
written to it, or its original value if the sequence never writes it. -/
theorem getElem?_applyWrites (ws : List (Nat × Nat)) (s : List Nat) (p : Nat) :
    (applyWrites ws s)[p]? =
      match lastWriteTo ws p with
      | some v => if p < s.length then some v else none
      | none => s[p]? := by
  induction ws generalizing s with
  | nil => simp [applyWrites, lastWriteTo]
  | cons w ws ih =>
    show (applyWrites ws (s.set w.1 w.2))[p]? = _
    rw [ih]
    cases h : lastWriteTo ws p with
    | some v =>
      simp [lastWriteTo, h, List.length_set]
    | none =>
      by_cases hw : w.1 = p
      · simp [lastWriteTo, h, hw, List.getElem?_set, List.length_set]
      · simp [lastWriteTo, h, hw, List.getElem?_set]

/-- Re-applying the same write sequence changes nothing. -/
theorem applyWrites_idem (ws : List (Nat × Nat)) (s : List Nat) :
    applyWrites ws (applyWrites ws s) = applyWrites ws s := by
  apply List.ext_getElem?
  intro p
  rw [getElem?_applyWrites, getElem?_applyWrites]
  cases h : lastWriteTo ws p with
  | some v => simp [length_applyWrites, getElem?_applyWrites, h]
  | none => simp [getElem?_applyWrites, h]

/-- When every vcpu-kind entry of a monitor response names a declared slot,
the reconciliation loop completes, applying the response's writes in order
and counting the vcpu-kind entries. -/
theorem refreshThreadLoop_inRange (info : List VirCHMonitorThreadInfo)
    (s : List Nat) (n : Nat)
    (h : ∀ w ∈ vcpuWrites info, w.1 < s.length) :
    refreshThreadLoop info s n =
      some (applyWrites (vcpuWrites info) s, n + (vcpuWrites info).length) := by
  induction info generalizing s n with
  | nil => simp [refreshThreadLoop, vcpuWrites, applyWrites]
  | cons t rest ih =>
    by_cases ht : t.type = .vcpu
    · have hw : vcpuWrites (t :: rest) =
          (t.vcpuInfo.cpuid, t.vcpuInfo.tid) :: vcpuWrites rest := by
        simp [vcpuWrites, ht]
      rw [hw] at h ⊢
      have hc : t.vcpuInfo.cpuid < s.length := h _ (List.mem_cons_self _ _)
      have hrest : ∀ w ∈ vcpuWrites rest,
          w.1 < (s.set t.vcpuInfo.cpuid t.vcpuInfo.tid).length := by
        intro w hwm
        rw [List.length_set]
        exact h w (List.mem_cons_of_mem _ hwm)
      rw [refreshThreadLoop, if_neg (by simp [ht]), if_pos hc,
        ih _ _ hrest]
      show _ = some (applyWrites (vcpuWrites rest) (s.set _ _), _)
      congr 1
      rw [Prod.mk.injEq]
      exact ⟨rfl, by simp; omega⟩
    · have hw : vcpuWrites (t :: rest) = vcpuWrites rest := by
        simp [vcpuWrites, ht]
      rw [hw] at h ⊢
      rw [refreshThreadLoop, if_pos (by simp [ht]), ih _ _ h]

/-- When some vcpu-kind entry names no declared slot, the reconciliation
loop hits the null dereference (modelled `none`). -/
theorem refreshThreadLoop_outOfRange (info : List VirCHMonitorThreadInfo)
    (s : List Nat) (n : Nat)
    (h : ¬ ∀ w ∈ vcpuWrites info, w.1 < s.length) :
    refreshThreadLoop info s n = none := by
  induction info generalizing s n with
  | nil => exact absurd (by simp [vcpuWrites]) h
  | cons t rest ih =>
    by_cases ht : t.type = .vcpu
    · have hw : vcpuWrites (t :: rest) =
          (t.vcpuInfo.cpuid, t.vcpuInfo.tid) :: vcpuWrites rest := by
        simp [vcpuWrites, ht]
      rw [hw] at h
      by_cases hc : t.vcpuInfo.cpuid < s.length
      · have hrest : ¬ ∀ w ∈ vcpuWrites rest,
            w.1 < (s.set t.vcpuInfo.cpuid t.vcpuInfo.tid).length := by
          rw [List.length_set]
          intro hall
          exact h (by
            intro w hwm
            rcases List.mem_cons.mp hwm with hweq | hwm'
            · rw [hweq]
              exact hc
            · exact hall w hwm')
        rw [refreshThreadLoop, if_neg (by simp [ht]), if_pos hc]
        exact ih _ _ hrest
      · rw [refreshThreadLoop, if_neg (by simp [ht]), if_neg hc]
    · have hw : vcpuWrites (t :: rest) = vcpuWrites rest := by
        simp [vcpuWrites, ht]
      rw [hw] at h
      rw [refreshThreadLoop, if_pos (by simp [ht])]
      exact ih _ _ h

/-- C6: thread-info reconciliation is idempotent.  For every per-slot tid
state and every fixed monitor response, running
`virCHDomainRefreshThreadInfo` a second time on the state produced by the
first run yields exactly the first run's outcome (same per-slot tids, same
reconciled count, same warning, same return value); and if the first run did
not complete, neither does the composition. -/
theorem C6_refresh_idempotent (info : List VirCHMonitorThreadInfo)
    (vcpuTids : List Nat) :
    (virCHDomainRefreshThreadInfo info vcpuTids).bind
        (fun r => virCHDomainRefreshThreadInfo info r.tids) =
      virCHDomainRefreshThreadInfo info vcpuTids := by
  unfold virCHDomainRefreshThreadInfo
  by_cases h : ∀ w ∈ vcpuWrites info, w.1 < vcpuTids.length
  · have hlen : (applyWrites (vcpuWrites info) vcpuTids).length = vcpuTids.length :=
      length_applyWrites _ _
    have h2 : ∀ w ∈ vcpuWrites info,
        w.1 < (applyWrites (vcpuWrites info) vcpuTids).length := by
      rw [hlen]
      exact h
    rw [refreshThreadLoop_inRange info vcpuTids 0 h]
    simp only [Option.map_some', Option.some_bind]
    rw [refreshThreadLoop_inRange info _ 0 h2]
    simp [applyWrites_idem, hlen]
  · rw [refreshThreadLoop_outOfRange info vcpuTids 0 h]
    rfl

end ChDomain
